import Mathlib

/-!
Verification of `examples/simple_agent.py` (SimpleAgent): a four-stage agent
pipeline (parse → plan → execute → respond) with a tool registry and a
language-model backend.  The Python code is shallowly embedded below: JSON
values are an inductive type, Python exceptions are an explicit error type,
fallible code returns `Except`, and the agent's mutable `self.memory` list is
threaded explicitly through `chat`.
-/

namespace SimpleAgent

/-- JSON values as produced by Python's `json.loads` (and as passed around the
agent pipeline).  Numbers are modelled as rationals; every numeral appearing in
the verified inputs is an integer, so no floating-point rounding is involved. -/
inductive JValue where
  | null : JValue
  | bool : Bool → JValue
  | num : ℚ → JValue
  | str : String → JValue
  | arr : List JValue → JValue
  | obj : List (String × JValue) → JValue

/-- The Python exceptions that the embedded fragment of `simple_agent.py` can
raise.  `excMessage` is a generic `Exception(message)` (used by `_call_llm`). -/
inductive PyError where
  | keyError : String → PyError
  | typeError : String → PyError
  | indexError : String → PyError
  | zeroDivisionError : PyError
  | syntaxError : PyError
  | nameError : String → PyError
  | jsonDecodeError : String → PyError
  | systemExit : PyError
  | excMessage : String → PyError
  deriving Repr, DecidableEq

/-- Whether the exception is a subclass of `Exception` — what a bare
`except Exception` clause catches.  `SystemExit` subclasses only
`BaseException` and is NOT caught. -/
def PyError.isException : PyError → Bool
  | .systemExit => false
  | _ => true

/-- Opening-brace character, written via its code point to keep brace
characters out of string literals. -/
def lbrace : Char := Char.ofNat 123

/-- Closing-brace character. -/
def rbrace : Char := Char.ofNat 125

/-- Opening brace as a string. -/
def lbraceS : String := String.singleton lbrace

/-- Closing brace as a string. -/
def rbraceS : String := String.singleton rbrace

/-- Apostrophe (single-quote) as a string, as used in Python error texts such
as `Tool 'x' not found`. -/
def squote : String := "\x27"

/-- First-match association-list lookup, modelling Python `dict` indexing on
the (duplicate-free) key lists produced by the JSON parser below. -/
def jLookup {α : Type} : List (String × α) → String → Option α
  | [], _ => none
  | kv :: rest, k => if kv.1 = k then some kv.2 else jLookup rest k

/-- `str(e)` for the modelled Python exceptions (the texts Python produces,
e.g. `division by zero` for `ZeroDivisionError`). -/
def PyError.str : PyError → String
  | .keyError k => squote ++ k ++ squote
  | .typeError m => m
  | .indexError m => m
  | .zeroDivisionError => "division by zero"
  | .syntaxError => "invalid syntax (<string>, line 1)"
  | .nameError m => "name " ++ squote ++ m ++ squote ++ " is not defined"
  | .jsonDecodeError m => m
  | .systemExit => ""
  | .excMessage m => m

/-! ### A model of `json.loads`

Recursive-descent JSON parser over the character list of the input, with a
fuel argument for termination.  Only integer numerals are modelled (no claim
input contains a fractional numeral).  Duplicate object keys keep the last
value at the first key's position, as Python `dict` construction does. -/

/-- JSON whitespace. -/
def isWs (c : Char) : Bool := c = ' ' ∨ c = '\n' ∨ c = '\t' ∨ c = '\r'

/-- Drop leading whitespace. -/
def skipWs : List Char → List Char
  | c :: rest => if isWs c then skipWs rest else c :: rest
  | [] => []

/-- Parse the remainder of a JSON string literal (after the opening quote),
returning the decoded text and the remaining input. -/
def parseJStr : List Char → Except PyError (String × List Char)
  | [] => .error (.jsonDecodeError "Unterminated string")
  | c :: rest =>
    if c = '"' then .ok ("", rest)
    else if c = '\\' then
      match rest with
      | [] => .error (.jsonDecodeError "Unterminated string")
      | e :: rest2 =>
        match (if e = '"' then some '"' else if e = '\\' then some '\\'
               else if e = '/' then some '/' else if e = 'n' then some '\n'
               else if e = 't' then some '\t' else if e = 'r' then some '\r'
               else none) with
        | some ec =>
          match parseJStr rest2 with
          | .ok (s, rem) => .ok (String.singleton ec ++ s, rem)
          | .error err => .error err
        | none => .error (.jsonDecodeError "Invalid escape")
    else
      match parseJStr rest with
      | .ok (s, rem) => .ok (String.singleton c ++ s, rem)
      | .error err => .error err

/-- Split a leading run of decimal digits. -/
def takeDigits : List Char → List Char × List Char
  | [] => ([], [])
  | c :: rest =>
    if c.isDigit then
      let (ds, rem) := takeDigits rest
      (c :: ds, rem)
    else ([], c :: rest)

/-- Numeric value of a digit run. -/
def digitsVal (ds : List Char) : Nat :=
  ds.foldl (fun a c => a * 10 + (c.toNat - 48)) 0

/-- Parse a JSON integer numeral (optional leading minus). -/
def parseJNum : List Char → Except PyError (JValue × List Char)
  | '-' :: rest =>
    match takeDigits rest with
    | ([], _) => .error (.jsonDecodeError "Expecting value")
    | (ds, rem) => .ok (.num (mkRat (-(digitsVal ds : Int)) 1), rem)
  | cs =>
    match takeDigits cs with
    | ([], _) => .error (.jsonDecodeError "Expecting value")
    | (ds, rem) => .ok (.num (mkRat (digitsVal ds : Int) 1), rem)

/-- Strip an expected literal prefix. -/
def stripLit : List Char → List Char → Option (List Char)
  | [], rest => some rest
  | a :: ps, c :: rest => if a = c then stripLit ps rest else none
  | _ :: _, [] => none

/-- Replace-or-append for object keys: Python `dict` updates a repeated key in
place (keeping its first position) with the later value. -/
def upsert : List (String × JValue) → String → JValue → List (String × JValue)
  | [], k, v => [(k, v)]
  | kv :: rest, k, v => if kv.1 = k then (k, v) :: rest else kv :: upsert rest k v

/-- Fold a parsed key/value sequence into a Python-`dict`-like key list. -/
def dedupKeys (ps : List (String × JValue)) : List (String × JValue) :=
  ps.foldl (fun acc kv => upsert acc kv.1 kv.2) []

mutual

/-- Parse one JSON value; `fuel` bounds nesting and list length. -/
def parseJ : Nat → List Char → Except PyError (JValue × List Char)
  | 0, _ => .error (.jsonDecodeError "out of fuel")
  | fuel + 1, cs =>
    match skipWs cs with
    | [] => .error (.jsonDecodeError "Expecting value")
    | c :: rest =>
      if c = '"' then
        match parseJStr rest with
        | .ok (s, rem) => .ok (.str s, rem)
        | .error e => .error e
      else if c = '[' then
        match skipWs rest with
        | ']' :: rem => .ok (.arr [], rem)
        | cs2 =>
          match parseArrItems fuel cs2 with
          | .ok (vs, rem) => .ok (.arr vs, rem)
          | .error e => .error e
      else if c = lbrace then
        match skipWs rest with
        | c2 :: rem2 =>
          if c2 = rbrace then .ok (.obj [], rem2)
          else
            match parseObjItems fuel (c2 :: rem2) with
            | .ok (ps, rem) => .ok (.obj (dedupKeys ps), rem)
            | .error e => .error e
        | [] => .error (.jsonDecodeError "Expecting property name")
      else if c = '-' ∨ c.isDigit then parseJNum (c :: rest)
      else
        match stripLit ['t', 'r', 'u', 'e'] (c :: rest) with
        | some rem => .ok (.bool true, rem)
        | none =>
          match stripLit ['f', 'a', 'l', 's', 'e'] (c :: rest) with
          | some rem => .ok (.bool false, rem)
          | none =>
            match stripLit ['n', 'u', 'l', 'l'] (c :: rest) with
            | some rem => .ok (.null, rem)
            | none => .error (.jsonDecodeError "Expecting value")

/-- Parse the comma-separated items of a non-empty JSON array. -/
def parseArrItems : Nat → List Char → Except PyError (List JValue × List Char)
  | 0, _ => .error (.jsonDecodeError "out of fuel")
  | fuel + 1, cs =>
    match parseJ fuel cs with
    | .error e => .error e
    | .ok (v, rem) =>
      match skipWs rem with
      | ',' :: rem2 =>
        match parseArrItems fuel rem2 with
        | .ok (vs, rem3) => .ok (v :: vs, rem3)
        | .error e => .error e
      | ']' :: rem2 => .ok ([v], rem2)
      | _ => .error (.jsonDecodeError "Expecting delimiter")

/-- Parse the comma-separated members of a non-empty JSON object. -/
def parseObjItems : Nat → List Char → Except PyError (List (String × JValue) × List Char)
  | 0, _ => .error (.jsonDecodeError "out of fuel")
  | fuel + 1, cs =>
    match skipWs cs with
    | [] => .error (.jsonDecodeError "Expecting property name")
    | c :: rest =>
      if c = '"' then
        match parseJStr rest with
        | .error e => .error e
        | .ok (k, rem) =>
          match skipWs rem with
          | ':' :: rem2 =>
            match parseJ fuel rem2 with
            | .error e => .error e
            | .ok (v, rem3) =>
              match skipWs rem3 with
              | ',' :: rem4 =>
                match parseObjItems fuel rem4 with
                | .ok (ps, rem5) => .ok ((k, v) :: ps, rem5)
                | .error e => .error e
              | c5 :: rem5 =>
                if c5 = rbrace then .ok ([(k, v)], rem5)
                else .error (.jsonDecodeError "Expecting delimiter")
              | [] => .error (.jsonDecodeError "Expecting delimiter")
          | _ => .error (.jsonDecodeError "Expecting colon")
      else .error (.jsonDecodeError "Expecting property name")

end

/-- Model of Python `json.loads`: decode one JSON document, requiring only
whitespace after it (`Extra data` otherwise), raising `json.JSONDecodeError`
on malformed input. -/
def json_loads (s : String) : Except PyError JValue :=
  match parseJ (2 * s.length + 2) s.toList with
  | .ok (v, rest) =>
    match skipWs rest with
    | [] => .ok v
    | _ => .error (.jsonDecodeError "Extra data")
  | .error e => .error e

/-! ### A model of Python `eval` on arithmetic expressions

`calculate` runs `eval(expression)` under `except Exception` — a clause that
catches `Exception` subclasses only, so a `SystemExit` raised inside the
evaluated expression escapes the tool.  The model below covers Python
expression evaluation on the fragment the verified statements exercise:
integer literals, `+ - * / ** ( )`, unary signs, statement keywords such as
`import` (a `SyntaxError`), calls to the site builtins `exit` / `quit`
(which raise `SystemExit`), and unbound identifiers (a runtime `NameError`).
Division is exact rational division; every verified input either stays
integral or raises before producing a value.  Outside the fragment the model
stops with an explicit error rather than inventing behavior: resolving the
enclosing module's globals (`os`, `json`, `requests`, so e.g. attribute
access like `os._exit`), `.`-tokens (attribute access, float literals), call
arguments other than one numeric literal, and the `Quitter` object a bare
`exit` evaluates to are all unmodelled, and no verified statement quantifies
over or evaluates such an input. -/

/-- Tokens of a Python arithmetic expression. -/
inductive Tok where
  | num : ℚ → Tok
  | ident : String → Tok
  | plus : Tok
  | minus : Tok
  | star : Tok
  | slash : Tok
  | dstar : Tok
  | lparen : Tok
  | rparen : Tok
  deriving Repr, DecidableEq

/-- Split a leading identifier run (letters, digits, underscore). -/
def takeIdent : List Char → List Char × List Char
  | [] => ([], [])
  | c :: rest =>
    if c.isAlphanum ∨ c = '_' then
      let (ws, rem) := takeIdent rest
      (c :: ws, rem)
    else ([], c :: rest)

/-- Tokenizer for the arithmetic fragment, fuelled for termination. -/
def tokenizeF : Nat → List Char → Except PyError (List Tok)
  | 0, _ => .error .syntaxError
  | _ + 1, [] => .ok []
  | fuel + 1, c :: rest =>
    if isWs c then tokenizeF fuel rest
    else if c = '+' then
      match tokenizeF fuel rest with
      | .ok ts => .ok (.plus :: ts)
      | .error e => .error e
    else if c = '-' then
      match tokenizeF fuel rest with
      | .ok ts => .ok (.minus :: ts)
      | .error e => .error e
    else if c = '*' then
      match rest with
      | '*' :: rest2 =>
        match tokenizeF fuel rest2 with
        | .ok ts => .ok (.dstar :: ts)
        | .error e => .error e
      | _ =>
        match tokenizeF fuel rest with
        | .ok ts => .ok (.star :: ts)
        | .error e => .error e
    else if c = '/' then
      match tokenizeF fuel rest with
      | .ok ts => .ok (.slash :: ts)
      | .error e => .error e
    else if c = '(' then
      match tokenizeF fuel rest with
      | .ok ts => .ok (.lparen :: ts)
      | .error e => .error e
    else if c = ')' then
      match tokenizeF fuel rest with
      | .ok ts => .ok (.rparen :: ts)
      | .error e => .error e
    else if c.isDigit then
      let (ds, rem) := takeDigits (c :: rest)
      match tokenizeF fuel rem with
      | .ok ts => .ok (.num (mkRat (digitsVal ds : Int) 1) :: ts)
      | .error e => .error e
    else if c.isAlpha ∨ c = '_' then
      let (ws, rem) := takeIdent (c :: rest)
      match tokenizeF fuel rem with
      | .ok ts => .ok (.ident (String.mk ws) :: ts)
      | .error e => .error e
    else .error .syntaxError

/-- Python expression AST for the arithmetic fragment.  `exitCall` is a call
to the site builtin `exit` / `quit`. -/
inductive PExpr where
  | num : ℚ → PExpr
  | add : PExpr → PExpr → PExpr
  | sub : PExpr → PExpr → PExpr
  | mul : PExpr → PExpr → PExpr
  | div : PExpr → PExpr → PExpr
  | pow : PExpr → PExpr → PExpr
  | neg : PExpr → PExpr
  | pos : PExpr → PExpr
  | exitCall : PExpr
  | name : String → PExpr
  deriving Repr, DecidableEq

/-- Python statement keywords: as an expression atom they are a syntax
error (`eval("import os")` is a `SyntaxError`). -/
def pyKeywords : List String :=
  ["import", "from", "and", "or", "not", "if", "else", "elif", "del", "pass",
   "return", "lambda", "def", "class", "for", "while", "in", "is", "raise",
   "with", "try", "except", "finally", "assert", "yield", "global",
   "nonlocal", "break", "continue", "as"]

mutual

/-- `expr := term (('+' | '-') term)*` -/
def parseE : Nat → List Tok → Except PyError (PExpr × List Tok)
  | 0, _ => .error .syntaxError
  | fuel + 1, ts =>
    match parseT fuel ts with
    | .error e => .error e
    | .ok (a, rest) => parseEList fuel a rest

/-- Left-associated additive tail. -/
def parseEList : Nat → PExpr → List Tok → Except PyError (PExpr × List Tok)
  | 0, _, _ => .error .syntaxError
  | fuel + 1, a, ts =>
    match ts with
    | .plus :: rest =>
      match parseT fuel rest with
      | .error e => .error e
      | .ok (b, rest2) => parseEList fuel (.add a b) rest2
    | .minus :: rest =>
      match parseT fuel rest with
      | .error e => .error e
      | .ok (b, rest2) => parseEList fuel (.sub a b) rest2
    | _ => .ok (a, ts)

/-- `term := unary (('*' | '/') unary)*` -/
def parseT : Nat → List Tok → Except PyError (PExpr × List Tok)
  | 0, _ => .error .syntaxError
  | fuel + 1, ts =>
    match parseU fuel ts with
    | .error e => .error e
    | .ok (a, rest) => parseTList fuel a rest

/-- Left-associated multiplicative tail. -/
def parseTList : Nat → PExpr → List Tok → Except PyError (PExpr × List Tok)
  | 0, _, _ => .error .syntaxError
  | fuel + 1, a, ts =>
    match ts with
    | .star :: rest =>
      match parseU fuel rest with
      | .error e => .error e
      | .ok (b, rest2) => parseTList fuel (.mul a b) rest2
    | .slash :: rest =>
      match parseU fuel rest with
      | .error e => .error e
      | .ok (b, rest2) => parseTList fuel (.div a b) rest2
    | _ => .ok (a, ts)

/-- `unary := ('+' | '-') unary | power` -/
def parseU : Nat → List Tok → Except PyError (PExpr × List Tok)
  | 0, _ => .error .syntaxError
  | fuel + 1, ts =>
    match ts with
    | .minus :: rest =>
      match parseU fuel rest with
      | .error e => .error e
      | .ok (a, rest2) => .ok (.neg a, rest2)
    | .plus :: rest =>
      match parseU fuel rest with
      | .error e => .error e
      | .ok (a, rest2) => .ok (.pos a, rest2)
    | _ => parseP fuel ts

/-- `power := atom ['**' unary]` (right-associative, as in Python). -/
def parseP : Nat → List Tok → Except PyError (PExpr × List Tok)
  | 0, _ => .error .syntaxError
  | fuel + 1, ts =>
    match parseA fuel ts with
    | .error e => .error e
    | .ok (a, rest) =>
      match rest with
      | .dstar :: rest2 =>
        match parseU fuel rest2 with
        | .error e => .error e
        | .ok (b, rest3) => .ok (.pow a b, rest3)
      | _ => .ok (a, rest)

/-- `atom := number | identifier [call] | '(' expr ')'`.  A statement keyword
is a `SyntaxError`; a call to `exit` / `quit` (no argument or one numeric
argument, as in `exit(0)`) becomes `exitCall`; a bare `exit` / `quit` would
evaluate to the `Quitter` object, which is outside the modelled value space —
marked by an explicit error, not mapped to any Python behavior; any other
identifier is an unresolved name, reported when evaluated (the module
globals `os` / `json` / `requests` are not modelled). -/
def parseA : Nat → List Tok → Except PyError (PExpr × List Tok)
  | 0, _ => .error .syntaxError
  | fuel + 1, ts =>
    match ts with
    | .num q :: rest => .ok (.num q, rest)
    | .ident name :: rest =>
      if name ∈ pyKeywords then .error .syntaxError
      else if name = "exit" ∨ name = "quit" then
        match rest with
        | .lparen :: .rparen :: rest2 => .ok (.exitCall, rest2)
        | .lparen :: .num _ :: .rparen :: rest2 => .ok (.exitCall, rest2)
        | _ => .error (.excMessage "Quitter object outside the modelled fragment")
      else .ok (.name name, rest)
    | .lparen :: rest =>
      match parseE fuel rest with
      | .error e => .error e
      | .ok (a, rest2) =>
        match rest2 with
        | .rparen :: rest3 => .ok (a, rest3)
        | _ => .error .syntaxError
    | _ => .error .syntaxError

end

/-- Rational addition written through `mkRat` so that the kernel can reduce
it on closed values (the library's `Rat.add` does not reduce definitionally);
on normalized inputs it agrees with `Rat.add`. -/
def qAdd (x y : ℚ) : ℚ := mkRat (x.num * y.den + y.num * x.den) (x.den * y.den)

/-- Kernel-reducible rational subtraction. -/
def qSub (x y : ℚ) : ℚ := mkRat (x.num * y.den - y.num * x.den) (x.den * y.den)

/-- Kernel-reducible rational multiplication. -/
def qMul (x y : ℚ) : ℚ := mkRat (x.num * y.num) (x.den * y.den)

/-- Kernel-reducible rational division (caller checks the divisor). -/
def qDiv (x y : ℚ) : ℚ :=
  if y.num < 0 then mkRat (-(x.num * y.den)) (x.den * y.num.natAbs)
  else mkRat (x.num * y.den) (x.den * y.num.natAbs)

/-- Kernel-reducible rational negation. -/
def qNeg (x : ℚ) : ℚ := mkRat (-x.num) x.den

/-- Kernel-reducible natural power. -/
def qPowNat (x : ℚ) : Nat → ℚ
  | 0 => 1
  | n + 1 => qMul (qPowNat x n) x

/-- Evaluate an arithmetic AST; division by zero raises
`ZeroDivisionError`, a call to `exit` / `quit` raises `SystemExit`, and an
identifier raises a runtime `NameError` (the evaluation environment is
modelled as empty — the module globals are outside the fragment), all as in
Python. -/
def evalE : PExpr → Except PyError ℚ
  | .num q => .ok q
  | .add a b =>
    match evalE a, evalE b with
    | .ok x, .ok y => .ok (qAdd x y)
    | .error e, _ => .error e
    | _, .error e => .error e
  | .sub a b =>
    match evalE a, evalE b with
    | .ok x, .ok y => .ok (qSub x y)
    | .error e, _ => .error e
    | _, .error e => .error e
  | .mul a b =>
    match evalE a, evalE b with
    | .ok x, .ok y => .ok (qMul x y)
    | .error e, _ => .error e
    | _, .error e => .error e
  | .div a b =>
    match evalE a, evalE b with
    | .ok x, .ok y => if y = 0 then .error .zeroDivisionError else .ok (qDiv x y)
    | .error e, _ => .error e
    | _, .error e => .error e
  | .pow a b =>
    match evalE a, evalE b with
    | .ok x, .ok y =>
      if y.den = 1 then
        if 0 ≤ y.num then .ok (qPowNat x y.num.toNat)
        else if x = 0 then .error .zeroDivisionError
        else .ok (qDiv 1 (qPowNat x y.num.natAbs))
      else .error (.excMessage "non-integer exponent not modelled")
    | .error e, _ => .error e
    | _, .error e => .error e
  | .neg a =>
    match evalE a with
    | .ok x => .ok (qNeg x)
    | .error e => .error e
  | .pos a => evalE a
  | .exitCall => .error .systemExit
  | .name n => .error (.nameError n)

/-- Model of `eval(expression)` on the arithmetic fragment: tokenize, parse
the whole token stream as one expression, then evaluate. -/
def pyEval (s : String) : Except PyError ℚ :=
  match tokenizeF (s.length + 1) s.toList with
  | .error e => .error e
  | .ok toks =>
    match parseE (4 * (toks.length + 1)) toks with
    | .error e => .error e
    | .ok (e, rest) =>
      match rest with
      | [] => evalE e
      | _ => .error .syntaxError

/-! ### Serialization (`json.dumps`) and Python `str()` -/

/-- Escape a character for a JSON string literal. -/
def jEscape (c : Char) : String :=
  if c = '"' then "\\\""
  else if c = '\\' then "\\\\"
  else if c = '\n' then "\\n"
  else if c = '\t' then "\\t"
  else if c = '\r' then "\\r"
  else String.singleton c

/-- Escape a whole string for JSON output. -/
def jEscapeStr (s : String) : String :=
  s.toList.foldl (fun acc c => acc ++ jEscape c) ""

/-- Render a rational the way the serialized numerals of this development
occur (all are integers; a non-integral value never reaches serialization in
any verified scenario). -/
def numRepr (q : ℚ) : String :=
  if q.den = 1 then toString q.num else toString q

mutual

/-- Model of `json.dumps` with its default separators. -/
def json_dumps : JValue → String
  | .null => "null"
  | .bool true => "true"
  | .bool false => "false"
  | .num q => numRepr q
  | .str s => "\"" ++ jEscapeStr s ++ "\""
  | .arr l => "[" ++ dumpsList l ++ "]"
  | .obj kvs => lbraceS ++ dumpsPairs kvs ++ rbraceS

/-- Comma-separated array elements. -/
def dumpsList : List JValue → String
  | [] => ""
  | [v] => json_dumps v
  | v :: rest => json_dumps v ++ ", " ++ dumpsList rest

/-- Comma-separated object members. -/
def dumpsPairs : List (String × JValue) → String
  | [] => ""
  | [(k, v)] => "\"" ++ jEscapeStr k ++ "\": " ++ json_dumps v
  | (k, v) :: rest =>
    "\"" ++ jEscapeStr k ++ "\": " ++ json_dumps v ++ ", " ++ dumpsPairs rest

end

/-- Python `str()` as used inside f-strings (`f"... {value} ..."`).  Strings
render as themselves and scalars as their Python text; containers are
approximated by their JSON text (Python `repr` would use single quotes — no
verified property observes a container here). -/
def pyStr : JValue → String
  | .str s => s
  | .num q => numRepr q
  | .bool true => "True"
  | .bool false => "False"
  | .null => "None"
  | .arr l => "[" ++ dumpsList l ++ "]"
  | .obj kvs => lbraceS ++ dumpsPairs kvs ++ rbraceS

/-! ### The tools and the registry (`self.tools`) -/

/-- `search_web(query)`: simulated search (lines 162-168). -/
def search_web (query : JValue) : JValue :=
  .obj [("result", .str ("Simulated search results for: " ++ pyStr query)),
        ("source", .str "web_search_simulation")]

/-- `calculate(expression)`: `eval` under `except Exception`, returning a
result payload or an error payload (lines 170-178).  The `except` catches
`Exception` subclasses only: a `SystemExit` raised inside the evaluated
expression (e.g. by `exit()`) propagates out of the tool.  A non-string
argument is the `TypeError` that `eval` raises, which the `except` catches. -/
def calculate (expression : JValue) : Except PyError JValue :=
  match expression with
  | .str s =>
    match pyEval s with
    | .ok v => .ok (.obj [("result", .num v)])
    | .error e =>
      if e.isException then .ok (.obj [("error", .str e.str)])
      else .error e
  | _ => .ok (.obj [("error", .str "eval() arg 1 must be a string, bytes or code object")])

/-- `get_weather(location)`: simulated weather lookup (lines 180-188). -/
def get_weather (location : JValue) : JValue :=
  .obj [("location", location),
        ("temperature", .str "72°F"),
        ("conditions", .str "Sunny"),
        ("source", .str "weather_simulation")]

/-- Binding of `**parameters` against a tool taking exactly one named
parameter: any extra keyword is a `TypeError`, a missing one likewise — the
call raises before the tool body runs. -/
def bindKw (pname : String) (kwargs : List (String × JValue)) : Except PyError JValue :=
  match kwargs.filter (fun kv => kv.1 ≠ pname) with
  | extra :: _ =>
    .error (.typeError ("got an unexpected keyword argument " ++ squote ++ extra.1 ++ squote))
  | [] =>
    match jLookup kwargs pname with
    | some v => .ok v
    | none =>
      .error (.typeError ("missing 1 required positional argument: " ++ squote ++ pname ++ squote))

/-- The registry `self.tools` built in `__init__` (lines 34-38): a mapping
from tool name to the bound method, here name to the keyword-binding wrapper
around the tool body. -/
def tools : List (String × (List (String × JValue) → Except PyError JValue)) :=
  [("search_web", fun kwargs => (bindKw "query" kwargs).map search_web),
   ("calculate", fun kwargs => (bindKw "expression" kwargs).bind calculate),
   ("get_weather", fun kwargs => (bindKw "location" kwargs).map get_weather)]

/-! ### The step executor (`_execute_steps`, lines 101-121) -/

/-- The two shapes of entry `_execute_steps` appends to `results`:
`{"step": step, "result": r}` or `{"step": step, "error": msg}`. -/
inductive StepOutcome where
  | result : JValue → JValue → StepOutcome
  | error : JValue → String → StepOutcome

/-- The `"step"` field of an outcome. -/
def StepOutcome.step : StepOutcome → JValue
  | .result s _ => s
  | .error s _ => s

/-- The returned value `{"results": results}`. -/
structure ExecBatch where
  results : List StepOutcome

/-- Python subscription `value[key]` with a string key: `KeyError` on a
missing dict key, `TypeError` on non-dict values. -/
def getItem (v : JValue) (key : String) : Except PyError JValue :=
  match v with
  | .obj kvs =>
    match jLookup kvs key with
    | some x => .ok x
    | none => .error (.keyError key)
  | .str _ => .error (.typeError "string indices must be integers")
  | .arr _ => .error (.typeError "list indices must be integers or slices, not str")
  | _ => .error (.typeError "object is not subscriptable")

/-- `self.tools[tool_name](**parameters)` needs `parameters` to be a mapping. -/
def asKwargs (parameters : JValue) : Except PyError (List (String × JValue)) :=
  match parameters with
  | .obj kvs => .ok kvs
  | _ => .error (.typeError "argument after ** must be a mapping")

/-- Dict membership `tool_name in self.tools`: unhashable values raise,
non-string hashable values are simply absent. -/
def registryMember (toolName : JValue) : Except PyError (Option (List (String × JValue) → Except PyError JValue)) :=
  match toolName with
  | .arr _ => .error (.typeError "unhashable type: list")
  | .obj _ => .error (.typeError "unhashable type: dict")
  | .str s => .ok (jLookup tools s)
  | _ => .ok none

/-- The loop body of `_execute_steps` (lines 105-119) for one planned step:
read `step["tool"]` and `step["parameters"]`, dispatch through the registry,
and produce the appended entry — a result or a `Tool '<name>' not found`
error; a raised exception is an `Except.error`. -/
def execStep1 (step : JValue) : Except PyError StepOutcome :=
  match getItem step "tool" with
  | .error e => .error e
  | .ok toolName =>
    match getItem step "parameters" with
    | .error e => .error e
    | .ok parameters =>
      match registryMember toolName with
      | .error e => .error e
      | .ok (some f) =>
        match asKwargs parameters with
        | .error e => .error e
        | .ok kwargs =>
          match f kwargs with
          | .error e => .error e
          | .ok toolResult => .ok (.result step toolResult)
      | .ok none =>
        .ok (.error step ("Tool " ++ squote ++ pyStr toolName ++ squote ++ " not found"))

/-- The `for step in steps` loop of `_execute_steps`: append one entry per
step in order; any exception raised by a loop body aborts the whole loop
(the collected entries are discarded with the raise). -/
def execLoop : List JValue → Except PyError (List StepOutcome)
  | [] => .ok []
  | step :: rest =>
    match execStep1 step with
    | .error e => .error e
    | .ok outcome =>
      match execLoop rest with
      | .error e => .error e
      | .ok others => .ok (outcome :: others)

/-- `_execute_steps(steps)`: run the loop and wrap the collected outcomes as
`{"results": results}`. -/
def execute_steps (steps : List JValue) : Except PyError ExecBatch :=
  match execLoop steps with
  | .ok results => .ok ⟨results⟩
  | .error e => .error e

/-! ### Messages, prompts and the pipeline (`chat`) -/

/-- Message roles. -/
inductive Role where
  | user : Role
  | assistant : Role
  deriving Repr, DecidableEq

/-- One entry of `self.memory`: `{"role": ..., "content": ...}`. -/
structure Message where
  role : Role
  content : String
  deriving Repr, DecidableEq

/-- A memory entry as the JSON value `json.dumps` serializes. -/
def messageToJ (m : Message) : JValue :=
  .obj [("role", .str (match m.role with | .user => "user" | .assistant => "assistant")),
        ("content", .str m.content)]

/-- An outcome as the dict `_execute_steps` built. -/
def outcomeToJ : StepOutcome → JValue
  | .result s r => .obj [("step", s), ("result", r)]
  | .error s msg => .obj [("step", s), ("error", .str msg)]

/-- The execution-results dict `{"results": [...]}` as a JSON value. -/
def batchToJ (b : ExecBatch) : JValue :=
  .obj [("results", .arr (b.results.map outcomeToJ))]

/-- The f-string prompt of `_parse_task` (lines 66-77), braces rendered as the
f-string renders `\x7b\x7b` and `\x7d\x7d`. -/
def parseTaskPrompt (message : String) : String :=
  "\n        Parse the following user request into a structured task:\n        \n        User request: "
    ++ message
    ++ "\n        \n        Return a JSON object with the following structure:\n        "
    ++ lbraceS
    ++ "\n            \"task_type\": \"search\" or \"calculate\" or \"weather\" or \"general\",\n            \"query\": \"the main query or question\",\n            \"parameters\": "
    ++ lbraceS ++ rbraceS
    ++ " # any additional parameters\n        "
    ++ rbraceS
    ++ "\n        "

/-- `_parse_task` (lines 64-80): build the prompt, call the model, and return
`json.loads(response)` — no validation of the decoded value. -/
def parse_task (llm : String → Except PyError String) (message : String) : Except PyError JValue :=
  match llm (parseTaskPrompt message) with
  | .ok response => json_loads response
  | .error e => .error e

/-- The f-string prompt of `_plan_steps` (lines 84-96). -/
def planStepsPrompt (taskJson : String) : String :=
  "\n        Given the following task, plan the steps needed to complete it:\n        \n        Task: "
    ++ taskJson
    ++ "\n        \n        Return a JSON array of step objects with the following structure:\n        [\n            "
    ++ lbraceS
    ++ "\n                \"tool\": \"name of the tool to use\",\n                \"parameters\": "
    ++ lbraceS ++ rbraceS
    ++ " # parameters for the tool\n            "
    ++ rbraceS
    ++ "\n        ]\n        "

/-- `_plan_steps` (lines 82-99): prompt with the serialized task, call the
model, and return `json.loads(response)` — again unvalidated. -/
def plan_steps (llm : String → Except PyError String) (task : JValue) : Except PyError JValue :=
  match llm (planStepsPrompt (json_dumps task)) with
  | .ok response => json_loads response
  | .error e => .error e

/-- Iterating `for step in steps` over the decoded plan value: a list yields
its elements, a dict its keys, a string its characters, scalars raise. -/
def iterSteps : JValue → Except PyError (List JValue)
  | .arr l => .ok l
  | .obj kvs => .ok (kvs.map (fun kv => JValue.str kv.1))
  | .str s => .ok (s.toList.map (fun c => JValue.str (String.singleton c)))
  | _ => .error (.typeError "object is not iterable")

/-- The f-string prompt of `_generate_response` (lines 125-132). -/
def genResponsePrompt (resultsJson : String) (memJson : String) : String :=
  "\n        Given the following execution results, generate a helpful response for the user:\n        \n        Results: "
    ++ resultsJson
    ++ "\n        \n        Prior conversation:\n        "
    ++ memJson
    ++ "\n        "

/-- `_generate_response` (lines 123-134): serialize the batch and
`self.memory[-10:]` into the prompt and return the model's reply verbatim. -/
def generate_response (llm : String → Except PyError String) (memory : List Message)
    (batch : ExecBatch) : Except PyError String :=
  llm (genResponsePrompt (json_dumps (batchToJ batch))
        (json_dumps (.arr ((memory.drop (memory.length - 10)).map messageToJ))))

/-- `chat` (lines 42-62) with `self.memory` threaded explicitly: the user
message is appended before the pipeline runs; each stage's raised exception
propagates, leaving memory at its current state; on success the assistant
reply is appended and returned. -/
def chat (llm : String → Except PyError String) (memory : List Message) (message : String) :
    Except PyError String × List Message :=
  let memory1 := memory ++ [⟨.user, message⟩]
  match parse_task llm message with
  | .error e => (.error e, memory1)
  | .ok task =>
    match plan_steps llm task with
    | .error e => (.error e, memory1)
    | .ok plan =>
      match (match iterSteps plan with
             | .ok steps => execute_steps steps
             | .error e => .error e) with
      | .error e => (.error e, memory1)
      | .ok batch =>
        match generate_response llm memory1 batch with
        | .error e => (.error e, memory1)
        | .ok response => (.ok response, memory1 ++ [⟨.assistant, response⟩])

/-! ### The backend client (`_call_llm`, lines 136-158) -/

/-- The relevant surface of a `requests` response: status code, the value
`response.json()` yields, and the raw text. -/
structure HttpResponse where
  status_code : Nat
  body : JValue
  text : String

/-- List indexing `l[i]`, `IndexError` out of range. -/
def pyIndex (v : JValue) (i : Nat) : Except PyError JValue :=
  match v with
  | .arr l =>
    match l.get? i with
    | some x => .ok x
    | none => .error (.indexError "list index out of range")
  | _ => .error (.typeError "object is not subscriptable")

/-- `response.json()["choices"][0]["message"]["content"]`, requiring the
content to be the string every well-formed backend response carries. -/
def extractContent (body : JValue) : Except PyError String :=
  match getItem body "choices" with
  | .error e => .error e
  | .ok choices =>
    match pyIndex choices 0 with
    | .error e => .error e
    | .ok c0 =>
      match getItem c0 "message" with
      | .error e => .error e
      | .ok msg =>
        match getItem msg "content" with
        | .error e => .error e
        | .ok (.str s) => .ok s
        | .ok _ => .error (.typeError "content is not a string")

/-- Lines 155-158: a 200 response yields the first choice's message content;
anything else raises `Exception(f"API call failed: {response.text}")`. -/
def handleResponse (r : HttpResponse) : Except PyError String :=
  if r.status_code = 200 then extractContent r.body
  else .error (.excMessage ("API call failed: " ++ r.text))

/-- `_call_llm`: POST the prompt (the transport is the opaque `post`
function) and handle the response. -/
def call_llm (post : String → HttpResponse) (prompt : String) : Except PyError String :=
  handleResponse (post prompt)

/-! ## Theorems -/

/-- A successful loop-body entry carries the step it was produced for. -/
theorem execStep1_step (step : JValue) (o : StepOutcome) (h : execStep1 step = .ok o) :
    o.step = step := by
  unfold execStep1 at h
  repeat' split at h
  all_goals first
    | (injection h with h'; subst h'; rfl)
    | exact absurd h (by simp)

/-- A successful executor loop yields one entry per step, in order, each
carrying its step. -/
theorem execLoop_ok_spec (steps : List JValue) (l : List StepOutcome)
    (h : execLoop steps = .ok l) :
    l.length = steps.length ∧
      ∀ i (hb : i < l.length) (hi : i < steps.length),
        (l.get ⟨i, hb⟩).step = steps.get ⟨i, hi⟩ := by
  induction steps generalizing l with
  | nil =>
    unfold execLoop at h
    injection h with h'
    subst h'
    exact ⟨rfl, fun i hb => absurd hb (by simp)⟩
  | cons step rest ih =>
    unfold execLoop at h
    split at h
    · exact absurd h (by simp)
    case _ outcome h1 =>
      split at h
      · exact absurd h (by simp)
      case _ others h2 =>
        injection h with h'
        subst h'
        obtain ⟨hlen, hidx⟩ := ih others h2
        refine ⟨by simpa using hlen, ?_⟩
        intro i hb hi
        match i with
        | 0 => exact execStep1_step step outcome h1
        | Nat.succ j =>
          exact hidx j (by simpa using hb) (by simpa using hi)

/-- C1: for every step sequence of length N (including N = 0),
`_execute_steps` — when it returns — returns a batch of exactly N outcomes,
the i-th outcome's step being the i-th input step; an empty sequence yields
an empty batch. -/
theorem execute_steps_length_and_order (steps : List JValue) (batch : ExecBatch)
    (h : execute_steps steps = .ok batch) :
    batch.results.length = steps.length ∧
    (∀ i (hb : i < batch.results.length) (hi : i < steps.length),
      (batch.results.get ⟨i, hb⟩).step = steps.get ⟨i, hi⟩) ∧
    (steps = [] → batch.results = []) := by
  unfold execute_steps at h
  split at h
  case _ results h1 =>
    injection h with h'
    subst h'
    obtain ⟨hlen, hidx⟩ := execLoop_ok_spec steps results h1
    refine ⟨hlen, hidx, ?_⟩
    intro hempty
    subst hempty
    exact List.length_eq_zero.mp hlen
  · exact absurd h (by simp)

/-- Concrete two-step plan for the C1 witness: one unknown tool, one real
search. -/
def c1steps : List JValue :=
  [JValue.obj [("tool", JValue.str "teleport"), ("parameters", JValue.obj [])],
   JValue.obj [("tool", JValue.str "search_web"),
               ("parameters", JValue.obj [("query", JValue.str "cats")])]]

/-- The batch the executor produces for `c1steps`. -/
def c1batch : ExecBatch :=
  ⟨[StepOutcome.error
      (JValue.obj [("tool", JValue.str "teleport"), ("parameters", JValue.obj [])])
      ("Tool " ++ squote ++ "teleport" ++ squote ++ " not found"),
    StepOutcome.result
      (JValue.obj [("tool", JValue.str "search_web"),
                   ("parameters", JValue.obj [("query", JValue.str "cats")])])
      (JValue.obj [("result", JValue.str "Simulated search results for: cats"),
                   ("source", JValue.str "web_search_simulation")])]⟩

/-- Witness for C1 at a concrete two-step input. -/
theorem execute_steps_length_and_order_witness :
    execute_steps c1steps = .ok c1batch ∧ c1batch.results.length = c1steps.length :=
  ⟨rfl, (execute_steps_length_and_order c1steps c1batch rfl).1⟩

/-- C2, counterexample: invoking a registered tool (`calculate`) with an
empty parameter mapping raises `TypeError` at the call, and `_execute_steps`
does not catch it — the whole batch call raises instead of recording a
per-step error outcome. -/
theorem execute_steps_exception_not_caught_cex :
    execute_steps [JValue.obj [("tool", JValue.str "calculate"), ("parameters", JValue.obj [])]]
      = .error (.typeError ("missing 1 required positional argument: "
          ++ squote ++ "expression" ++ squote)) := rfl

/-- C2, amended: for every step whose tool is present in the registry, if
invoking the tool raises, the exception propagates out of `_execute_steps`
and aborts the whole batch (no per-step error outcome is recorded). -/
theorem execute_steps_exception_propagates (step : JValue) (rest : List JValue)
    (name : String) (params : JValue) (kwargs : List (String × JValue))
    (f : List (String × JValue) → Except PyError JValue) (e : PyError)
    (h1 : getItem step "tool" = .ok (.str name))
    (h2 : getItem step "parameters" = .ok params)
    (h3 : jLookup tools name = some f)
    (h4 : asKwargs params = .ok kwargs)
    (h5 : f kwargs = .error e) :
    execute_steps (step :: rest) = .error e := by
  unfold execute_steps execLoop execStep1
  rw [h1, h2]
  simp only [registryMember, h3, h4, h5]

/-- Witness for C2's amended statement at the counterexample input. -/
theorem execute_steps_exception_propagates_witness :
    execute_steps [JValue.obj [("tool", JValue.str "calculate"),
                               ("parameters", JValue.obj [("expr", JValue.str "2+2")])]]
      = .error (.typeError ("got an unexpected keyword argument "
          ++ squote ++ "expr" ++ squote)) :=
  execute_steps_exception_propagates _ [] "calculate" (JValue.obj [("expr", JValue.str "2+2")])
    [("expr", JValue.str "2+2")] _ _ rfl rfl rfl rfl rfl

/-- A loop iteration that produces an entry prepends it to the rest of the
loop's entries (continuation after a per-step outcome). -/
theorem execLoop_cons (step : JValue) (rest : List JValue) (o : StepOutcome)
    (h : execStep1 step = .ok o) :
    execLoop (step :: rest) = (execLoop rest).map (fun others => o :: others) := by
  simp only [execLoop, h]
  cases execLoop rest <;> simp [Except.map]

/-- C3: a step whose tool name is not a registry key contributes the error
outcome `Tool '<name>' not found` (with the step's tool name substituted) and
the loop continues with the remaining steps; no exception is raised for that
step. -/
theorem execute_steps_unknown_tool (step : JValue) (rest : List JValue)
    (name : String) (params : JValue)
    (h1 : getItem step "tool" = .ok (.str name))
    (h2 : getItem step "parameters" = .ok params)
    (h3 : jLookup tools name = none) :
    execute_steps (step :: rest) =
      (execute_steps rest).map
        (fun b => ⟨StepOutcome.error step
            ("Tool " ++ squote ++ name ++ squote ++ " not found") :: b.results⟩) := by
  have hstep : execStep1 step
      = .ok (.error step ("Tool " ++ squote ++ name ++ squote ++ " not found")) := by
    unfold execStep1
    rw [h1, h2]
    simp only [registryMember, h3, pyStr]
  unfold execute_steps
  rw [execLoop_cons step rest _ hstep]
  cases execLoop rest <;> simp [Except.map]

/-- Witness for C3: one unknown tool followed by a real calculation; the
batch keeps both, in order. -/
theorem execute_steps_unknown_tool_witness :
    execute_steps [JValue.obj [("tool", JValue.str "fly"), ("parameters", JValue.obj [])],
                   JValue.obj [("tool", JValue.str "calculate"),
                               ("parameters", JValue.obj [("expression", JValue.str "1+1")])]]
      = .ok ⟨[StepOutcome.error
                (JValue.obj [("tool", JValue.str "fly"), ("parameters", JValue.obj [])])
                ("Tool " ++ squote ++ "fly" ++ squote ++ " not found"),
              StepOutcome.result
                (JValue.obj [("tool", JValue.str "calculate"),
                             ("parameters", JValue.obj [("expression", JValue.str "1+1")])])
                (JValue.obj [("result", JValue.num 2)])]⟩ :=
  (execute_steps_unknown_tool
      (JValue.obj [("tool", JValue.str "fly"), ("parameters", JValue.obj [])])
      [JValue.obj [("tool", JValue.str "calculate"),
                   ("parameters", JValue.obj [("expression", JValue.str "1+1")])]]
      "fly" (JValue.obj []) rfl rfl rfl).trans rfl

/-- C10: a step mapping lacking the `"tool"` key raises `KeyError('tool')`,
and one with `"tool"` but no `"parameters"` key raises `KeyError('parameters')`;
either way `_execute_steps` aborts the whole batch with the exception instead
of recording a per-step error. -/
theorem execute_steps_missing_key_raises (kvs : List (String × JValue)) (rest : List JValue) :
    (jLookup kvs "tool" = none →
      execute_steps (JValue.obj kvs :: rest) = .error (.keyError "tool")) ∧
    (∀ t, jLookup kvs "tool" = some t → jLookup kvs "parameters" = none →
      execute_steps (JValue.obj kvs :: rest) = .error (.keyError "parameters")) := by
  constructor
  · intro h
    unfold execute_steps execLoop execStep1 getItem
    simp only [h]
  · intro t h1 h2
    unfold execute_steps execLoop execStep1 getItem
    simp only [h1, h2]

/-- Witness for C10: a step with neither key, and a step with only `"tool"`. -/
theorem execute_steps_missing_key_raises_witness :
    execute_steps [JValue.obj []] = .error (.keyError "tool") ∧
    execute_steps [JValue.obj [("tool", JValue.str "calculate")]]
      = .error (.keyError "parameters") :=
  ⟨(execute_steps_missing_key_raises [] []).1 rfl,
   (execute_steps_missing_key_raises [("tool", JValue.str "calculate")] []).2
     (JValue.str "calculate") rfl rfl⟩

/-- C4, counterexample: a backend response whose `task_type` is not one of
the four enumerated literals is returned as-is by `_parse_task` — no
`MalformedTaskError`-style validation happens after decoding. -/
theorem parse_task_no_validation_cex :
    parse_task
      (fun _ => .ok (lbraceS ++ "\"task_type\": \"teleport\", \"query\": \"q\", \"parameters\": "
        ++ lbraceS ++ rbraceS ++ rbraceS))
      "hi"
      = .ok (JValue.obj [("task_type", JValue.str "teleport"), ("query", JValue.str "q"),
                         ("parameters", JValue.obj [])]) := rfl

/-- C4, amended: `_parse_task` returns exactly `json.loads` of the backend
text — parseable text (whatever its fields, `task_type` included) is returned
with its decoded fields unchanged, unparseable text fails with the JSON
decode error, and no field validation is performed. -/
theorem parse_task_decodes_unvalidated (llm : String → Except PyError String)
    (msg r : String) (h : llm (parseTaskPrompt msg) = .ok r) :
    parse_task llm msg = json_loads r := by
  unfold parse_task
  rw [h]

/-- Witness for C4's amended statement: a well-formed task round-trips, and
non-JSON text is a decode error. -/
theorem parse_task_decodes_unvalidated_witness :
    parse_task
      (fun _ => .ok (lbraceS ++ "\"task_type\": \"general\", \"query\": \"hello\", \"parameters\": "
        ++ lbraceS ++ rbraceS ++ rbraceS))
      "hello"
      = .ok (JValue.obj [("task_type", JValue.str "general"), ("query", JValue.str "hello"),
                         ("parameters", JValue.obj [])]) ∧
    parse_task (fun _ => .ok "sure, here is your task!") "hello"
      = .error (.jsonDecodeError "Expecting value") :=
  ⟨(parse_task_decodes_unvalidated _ "hello"
      (lbraceS ++ "\"task_type\": \"general\", \"query\": \"hello\", \"parameters\": "
        ++ lbraceS ++ rbraceS ++ rbraceS) rfl).trans rfl,
   (parse_task_decodes_unvalidated _ "hello" "sure, here is your task!" rfl).trans rfl⟩

/-- C5: `chat` appends the user message to memory before any pipeline stage
runs (so it is present in the final memory whatever the outcome, and the
prior entries are untouched in place and order), and when the pipeline
succeeds the final memory is the old one plus exactly the user message and
the returned assistant reply, in that order. -/
theorem chat_appends_user_then_assistant (llm : String → Except PyError String)
    (memory : List Message) (message : String) :
    (∃ tail, (chat llm memory message).2 = memory ++ Message.mk .user message :: tail) ∧
    (∀ r, (chat llm memory message).1 = .ok r →
      (chat llm memory message).2
        = memory ++ [Message.mk .user message, Message.mk .assistant r]) := by
  unfold chat
  cases h1 : parse_task llm message with
  | error e =>
    refine ⟨⟨[], by simp⟩, fun r hr => ?_⟩
    simp at hr
  | ok task =>
    cases h2 : plan_steps llm task with
    | error e =>
      refine ⟨⟨[], by simp [h2]⟩, fun r hr => ?_⟩
      simp [h2] at hr
    | ok plan =>
      cases h3 : (match iterSteps plan with
                  | .ok steps => execute_steps steps
                  | .error e => .error e) with
      | error e =>
        refine ⟨⟨[], by simp [h2, h3]⟩, fun r hr => ?_⟩
        simp [h2, h3] at hr
      | ok batch =>
        cases h4 : generate_response llm (memory ++ [⟨.user, message⟩]) batch with
        | error e =>
          refine ⟨⟨[], by simp [h2, h3, h4]⟩, fun r hr => ?_⟩
          simp [h2, h3, h4] at hr
        | ok response =>
          refine ⟨⟨[⟨.assistant, response⟩], by simp [h2, h3, h4]⟩, fun r hr => ?_⟩
          simp [h2, h3, h4] at hr
          subst hr
          simp [h2, h3, h4]

/-- Witness for C5: a backend that always answers `[]` drives the whole
pipeline to success; memory gains the user message then the reply. -/
theorem chat_appends_user_then_assistant_witness :
    (chat (fun _ => .ok "[]") [] "hi").1 = .ok "[]" ∧
    (chat (fun _ => .ok "[]") [] "hi").2
      = [Message.mk .user "hi", Message.mk .assistant "[]"] :=
  ⟨rfl, (chat_appends_user_then_assistant (fun _ => .ok "[]") [] "hi").2 "[]" rfl⟩

/-- C6 (the code against the claimed restricted evaluator): `calculate`
evaluates through unrestricted `eval`, so `2**3` — outside the claimed
`+ - * / ( )` grammar — is accepted and yields a result payload of `8`,
and `"import os"` produces a caught `SyntaxError` text in an `error`
payload, not an `InvalidExpressionError` (no such error exists in the
code). -/
theorem calculate_eval_unrestricted :
    calculate (.str "2**3") = .ok (.obj [("result", .num 8)]) ∧
    calculate (.str "import os")
      = .ok (.obj [("error", .str "invalid syntax (<string>, line 1)")]) :=
  ⟨rfl, rfl⟩

/-- C7: the arithmetic tool computes correct values on well-formed
expressions: `2+2` yields `4` and `(3*4)-5` yields `7`, each as the
`result` field of the returned mapping. -/
theorem calculate_arithmetic_examples :
    calculate (.str "2+2") = .ok (.obj [("result", .num 4)]) ∧
    calculate (.str "(3*4)-5") = .ok (.obj [("result", .num 7)]) :=
  ⟨rfl, rfl⟩

/-- C8 (the code against the claimed total error handling): `except
Exception` at line 177 does not cover the whole of `BaseException`, so
`calculate("exit()")` — where `eval` reaches the site builtin `exit` and
calling it raises `SystemExit` — lets that exception escape the tool
instead of returning a mapping; the `1/0` half of the claim does hold:
it yields the caught division-by-zero error payload. -/
theorem calculate_systemexit_escapes :
    calculate (.str "exit()") = .error .systemExit ∧
    calculate (.str "1/0") = .ok (.obj [("error", .str "division by zero")]) :=
  ⟨rfl, rfl⟩

/-- C9: on a 200 response `_call_llm` returns the first completion choice's
message content verbatim; on any non-200 status it raises
`Exception(f"API call failed: {response.text}")` — carrying the backend's
response text — and so never returns a value. -/
theorem call_llm_success_and_error (post : String → HttpResponse) (prompt : String) :
    ((post prompt).status_code = 200 →
      ∀ c, extractContent (post prompt).body = .ok c → call_llm post prompt = .ok c) ∧
    ((post prompt).status_code ≠ 200 →
      call_llm post prompt
        = .error (.excMessage ("API call failed: " ++ (post prompt).text))) := by
  unfold call_llm handleResponse
  constructor
  · intro h200 c hc
    rw [if_pos h200]
    exact hc
  · intro hne
    rw [if_neg hne]

/-- Witness for C9: a concrete well-formed 200 response and a concrete 500
response. -/
theorem call_llm_success_and_error_witness :
    call_llm (fun _ => ⟨200,
        JValue.obj [("choices", JValue.arr
          [JValue.obj [("message", JValue.obj [("content", JValue.str "hello")])]])],
        "raw"⟩) "p" = .ok "hello" ∧
    call_llm (fun _ => ⟨500, JValue.null, "boom"⟩) "p"
      = .error (.excMessage "API call failed: boom") :=
  ⟨(call_llm_success_and_error (fun _ => ⟨200,
      JValue.obj [("choices", JValue.arr
        [JValue.obj [("message", JValue.obj [("content", JValue.str "hello")])]])],
      "raw"⟩) "p").1 rfl "hello" rfl,
   (call_llm_success_and_error (fun _ => ⟨500, JValue.null, "boom"⟩) "p").2 (by decide)⟩

end SimpleAgent
